import Mathlib

/-!
Shallow embedding of the volunteer-coordination platform slice:
the organization signup route (`POST /organization/request`), the
database migration declaring the four tables, and the volunteer
profile page's client-side state logic.

JavaScript strings are modelled as Lean `String`s; the JavaScript
string primitives used by the code (`toLowerCase`, `trim`, `split`,
`slice`, `join`) are modelled over the underlying character list.
-/

/-- Model of JavaScript whitespace for `String.prototype.trim`. -/
def jsIsWhitespace (c : Char) : Bool := c.isWhitespace

/-- Model of `s.trim()`: removes leading and trailing whitespace. -/
def jsTrim (s : String) : String :=
  String.mk (((s.data.dropWhile jsIsWhitespace).reverse.dropWhile jsIsWhitespace).reverse)

/-- Model of `s.toLowerCase()` (character-wise lowering). -/
def jsToLowerCase (s : String) : String := String.mk (s.data.map Char.toLower)

/-- Model of `s.split(',')`: segments between commas; `"".split(',')` is `[""]`. -/
def jsSplitComma (s : String) : List String :=
  (s.data.splitOn ',').map String.mk

/-- Model of `s.slice(0, n)`: the first `n` characters of `s`. -/
def jsSliceTo (s : String) (n : Nat) : String := String.mk (s.data.take n)

/-- Model of `xs.join(sep)` on an array of strings. -/
def jsJoin (sep : String) (xs : List String) : String :=
  String.mk (List.intercalate sep.data (xs.map String.data))

/-!
## Server: `POST /organization/request`
(src/server/src/api/routes/organization/index.ts)
-/

/-- Body accepted by `newOrganizationRequestSchema`:
`{name, email, phone_number?, url, location_name, latitude?, longitude?}`. -/
structure NewOrganizationRequest where
  name : String
  email : String
  phone_number : Option String
  url : String
  location_name : String
  latitude : Option Rat
  longitude : Option Rat
deriving DecidableEq

/-- A row of the `organization_account` table (see the migration below). -/
structure OrganizationAccountRow where
  id : Nat
  name : String
  email : String
  phone_number : String
  url : String
  latitude : Option Rat
  longitude : Option Rat
  password : String
  location_name : String
deriving DecidableEq

/-- A row of the `organization_request` table (see the migration below). -/
structure OrganizationRequestRow where
  id : Nat
  email : String
  name : String
  phone_number : Option String
  url : String
  latitude : Option Rat
  longitude : Option Rat
  location_name : String
deriving DecidableEq

/-- The database state visible to the signup route: the two organization
tables, plus the next value of the `organization_request.id` serial. -/
structure Database where
  organization_account : List OrganizationAccountRow
  organization_request : List OrganizationRequestRow
  nextRequestId : Nat
deriving DecidableEq

/-- A JSON response body of the route: the success path sends `res.json({})`;
the `record` constructor exists to state what sending the stored row
would look like. -/
inductive ResponseBody where
  | emptyObject : ResponseBody
  | record : OrganizationRequestRow → ResponseBody
deriving DecidableEq

/-- Outcome of one handler run: a thrown error with the HTTP status that was
set on the response (`res.status(400)` before `throw`), or a JSON reply. -/
inductive HandlerResult where
  | error : Nat → String → HandlerResult
  | ok : ResponseBody → HandlerResult
deriving DecidableEq

/-- `body.email.toLowerCase().trim()` (index.ts line 12). -/
def normalizeEmail (e : String) : String := jsTrim (jsToLowerCase e)

/-- The row built by the `insertInto('organization_request').values({...})`
call: the normalized email plus the supplied fields, with the serial id. -/
def newRequestRow (db : Database) (body : NewOrganizationRequest) : OrganizationRequestRow :=
  { id := db.nextRequestId
    email := normalizeEmail body.email
    name := body.name
    phone_number := body.phone_number
    url := body.url
    latitude := body.latitude
    longitude := body.longitude
    location_name := body.location_name }

/-- The `POST /organization/request` handler. `notify` stands for
`sendAdminOrganizationRequestEmail`, whose result (or thrown error) is
caught and ignored by the `try/catch` around it. A completed insert with
`returningAll().executeTakeFirst()` yields the inserted row, so the
`if (!organization)` fallback branch is unreachable in this model. -/
def postOrganizationRequest (db : Database) (body : NewOrganizationRequest)
    (notify : OrganizationRequestRow → Except String Unit) :
    HandlerResult × Database :=
  let email := normalizeEmail body.email
  match db.organization_account.find? (fun r => r.email == email) with
  | some _ => (HandlerResult.error 400 "An organization with this email account already exists", db)
  | none =>
    match db.organization_request.find? (fun r => r.email == email) with
    | some _ => (HandlerResult.error 400 "A request with this email is already pending", db)
    | none =>
      let row := newRequestRow db body
      let db' : Database :=
        { db with
            organization_request := db.organization_request ++ [row]
            nextRequestId := db.nextRequestId + 1 }
      match notify row with
      | Except.ok _ => (HandlerResult.ok ResponseBody.emptyObject, db')
      | Except.error _ => (HandlerResult.ok ResponseBody.emptyObject, db')

/-!
## Migration: the four `createTable` calls of `up`
-/

/-- One `addColumn` invocation: the column name, its SQL type, and the
modifiers applied through the column builder. -/
structure ColumnDef where
  name : String
  sqlType : String
  primaryKey : Bool := false
  notNull : Bool := false
  unique : Bool := false
deriving DecidableEq

/-- `createTable('organization_account')`. -/
def organization_account_columns : List ColumnDef :=
  [ { name := "id", sqlType := "serial", primaryKey := true }
  , { name := "name", sqlType := "varchar", notNull := true }
  , { name := "email", sqlType := "varchar(128)", notNull := true, unique := true }
  , { name := "phone_number", sqlType := "varchar(32)", notNull := true, unique := true }
  , { name := "url", sqlType := "varchar(256)", notNull := true, unique := true }
  , { name := "latitude", sqlType := "numeric" }
  , { name := "longitude", sqlType := "numeric" }
  , { name := "password", sqlType := "varchar(256)", notNull := true, unique := true }
  , { name := "location_name", sqlType := "varchar(256)", notNull := true } ]

/-- `createTable('organization_request')`. -/
def organization_request_columns : List ColumnDef :=
  [ { name := "id", sqlType := "serial", primaryKey := true }
  , { name := "email", sqlType := "varchar(128)", notNull := true, unique := true }
  , { name := "name", sqlType := "varchar(128)", notNull := true }
  , { name := "phone_number", sqlType := "varchar(32)" }
  , { name := "url", sqlType := "varchar(256)", notNull := true, unique := true }
  , { name := "latitude", sqlType := "numeric" }
  , { name := "longitude", sqlType := "numeric" }
  , { name := "location_name", sqlType := "varchar(256)", notNull := true } ]

/-- `createTable('volunteer_account')`. -/
def volunteer_account_columns : List ColumnDef :=
  [ { name := "id", sqlType := "serial", primaryKey := true }
  , { name := "first_name", sqlType := "varchar(128)", notNull := true }
  , { name := "last_name", sqlType := "varchar(128)", notNull := true }
  , { name := "gender", sqlType := "varchar(64)", notNull := true }
  , { name := "email", sqlType := "varchar(128)", notNull := true, unique := true }
  , { name := "phone_number", sqlType := "varchar(32)", notNull := true, unique := true }
  , { name := "password", sqlType := "varchar(256)", notNull := true, unique := true } ]

/-- `createTable('admin_account')`. -/
def admin_account_columns : List ColumnDef :=
  [ { name := "id", sqlType := "serial", primaryKey := true }
  , { name := "email", sqlType := "varchar(128)", notNull := true, unique := true }
  , { name := "first_name", sqlType := "varchar(64)", notNull := true }
  , { name := "last_name", sqlType := "varchar(64)", notNull := true } ]

/-- An SQL value stored in one column of a row, for stating uniqueness. -/
inductive ColumnValue where
  | intVal : Nat → ColumnValue
  | strVal : String → ColumnValue
  | optStrVal : Option String → ColumnValue
  | numVal : Option Rat → ColumnValue
deriving DecidableEq

/-- The value an `organization_account` row holds in the named column. -/
def accountColumnValue (col : String) (r : OrganizationAccountRow) : ColumnValue :=
  if col = "id" then ColumnValue.intVal r.id
  else if col = "name" then ColumnValue.strVal r.name
  else if col = "email" then ColumnValue.strVal r.email
  else if col = "phone_number" then ColumnValue.strVal r.phone_number
  else if col = "url" then ColumnValue.strVal r.url
  else if col = "latitude" then ColumnValue.numVal r.latitude
  else if col = "longitude" then ColumnValue.numVal r.longitude
  else if col = "password" then ColumnValue.strVal r.password
  else ColumnValue.strVal r.location_name

/-- The value an `organization_request` row holds in the named column. -/
def requestColumnValue (col : String) (r : OrganizationRequestRow) : ColumnValue :=
  if col = "id" then ColumnValue.intVal r.id
  else if col = "email" then ColumnValue.strVal r.email
  else if col = "name" then ColumnValue.strVal r.name
  else if col = "phone_number" then ColumnValue.optStrVal r.phone_number
  else if col = "url" then ColumnValue.strVal r.url
  else if col = "latitude" then ColumnValue.numVal r.latitude
  else if col = "longitude" then ColumnValue.numVal r.longitude
  else ColumnValue.strVal r.location_name

/-- A database state in which the DBMS enforces every `unique` modifier the
migration declared on the two organization tables: each column declared
unique holds pairwise distinct values. This is what holds of every
reachable state of a database created by the migration. -/
def EnforcesUniqueConstraints (db : Database) : Prop :=
  (∀ c ∈ organization_account_columns, c.unique = true →
      (db.organization_account.map (accountColumnValue c.name)).Nodup) ∧
  (∀ c ∈ organization_request_columns, c.unique = true →
      (db.organization_request.map (requestColumnValue c.name)).Nodup)

/-!
## Client: the volunteer profile page (`VolunteerProfile`)
-/

/-- The `volunteer` object of `VolunteerProfileResponse`. The TypeScript
type of `gender` is the union `'male' | 'female' | 'other'`. -/
structure Volunteer where
  id : Nat
  first_name : String
  last_name : String
  email : String
  date_of_birth : String
  gender : String
  description : Option String
deriving DecidableEq

/-- Shape returned by `GET /volunteer/profile` and `PUT /volunteer/profile`. -/
structure VolunteerProfileResponse where
  volunteer : Volunteer
  skills : List String
  cv : Option String
  privacy : Option String
  unavailableFields : List String
deriving DecidableEq

/-- `ProfileFormState`: the editable form fields. The TypeScript type of
`privacy` is the union `'public' | 'private'`. -/
structure ProfileFormState where
  description : String
  skills : String
  cv : String
  privacy : String
deriving DecidableEq

/-- The field names of `ProfileFormState` (`keyof ProfileFormState`). -/
inductive ProfileFormField where
  | description : ProfileFormField
  | skills : ProfileFormField
  | cv : ProfileFormField
  | privacy : ProfileFormField
deriving DecidableEq

def DESCRIPTION_MAX_LENGTH : Nat := 300

/-- `getDefaultFormState`: seeds the form from a server-confirmed profile. -/
def getDefaultFormState (profile : VolunteerProfileResponse) : ProfileFormState :=
  { description := profile.volunteer.description.getD ""
    skills := jsJoin ", " profile.skills
    cv := profile.cv.getD ""
    privacy := if profile.privacy = some "private" then "private" else "public" }

/-- The component's state: the `useState` hooks of `VolunteerProfile`. -/
structure ClientState where
  profile : Option VolunteerProfileResponse
  form : ProfileFormState
  loading : Bool
  saving : Bool
  fetchError : Option String
  saveError : Option String
  saveMessage : Option String
  isEditMode : Bool
deriving DecidableEq

/-- The initial `useState` values of `VolunteerProfile`. -/
def initialClientState : ClientState :=
  { profile := none
    form := { description := "", skills := "", cv := "", privacy := "public" }
    loading := true
    saving := false
    fetchError := none
    saveError := none
    saveMessage := none
    isEditMode := false }

/-- `{...prev, [field]: nextValue}` inside `updateForm`. -/
def updateFormField (field : ProfileFormField) (nextValue : String)
    (prev : ProfileFormState) : ProfileFormState :=
  match field with
  | ProfileFormField.description => { prev with description := nextValue }
  | ProfileFormField.skills => { prev with skills := nextValue }
  | ProfileFormField.cv => { prev with cv := nextValue }
  | ProfileFormField.privacy => { prev with privacy := nextValue }

/-- `updateForm`: truncates a description to `DESCRIPTION_MAX_LENGTH`
characters via `value.slice(0, DESCRIPTION_MAX_LENGTH)`, stores the value,
and clears the save error and message. -/
def updateForm (state : ClientState) (field : ProfileFormField) (value : String) : ClientState :=
  let nextValue :=
    if field = ProfileFormField.description then jsSliceTo value DESCRIPTION_MAX_LENGTH else value
  { state with
      form := updateFormField field nextValue state.form
      saveError := none
      saveMessage := none }

/-- `parsedSkills`: `form.skills.split(',').map(s => s.trim()).filter(Boolean)`. -/
def parsedSkills (skills : String) : List String :=
  ((jsSplitComma skills).map jsTrim).filter (fun s => s ≠ "")

/-- `onSave`: guarded by `if (!isEditMode || !profile) return`; `result` is
the outcome of the awaited `PUT /volunteer/profile` call. On success the
response becomes the profile, the form is reseeded from it, and edit mode
ends; on failure only `saveError` (and the transient flags) change. -/
def onSave (state : ClientState) (result : Except String VolunteerProfileResponse) : ClientState :=
  if !state.isEditMode || state.profile.isNone then state
  else
    match result with
    | Except.ok response =>
      { state with
          profile := some response
          form := getDefaultFormState response
          saveMessage := some "Profile changes saved."
          saveError := none
          saving := false
          isEditMode := false }
    | Except.error message =>
      { state with
          saveError := some message
          saveMessage := none
          saving := false }

/-- `onCancelEdit`: reseeds the form from the server-confirmed profile and
leaves edit mode. -/
def onCancelEdit (state : ClientState) : ClientState :=
  match state.profile with
  | none => state
  | some profile =>
    { state with
        form := getDefaultFormState profile
        isEditMode := false
        saveError := none
        saveMessage := none }

/-- A sequence of form-field edits, each applied through `updateForm`. -/
def applyEdits : ClientState → List (ProfileFormField × String) → ClientState
  | state, [] => state
  | state, (field, value) :: rest => applyEdits (updateForm state field value) rest

instance (db : Database) : Decidable (EnforcesUniqueConstraints db) := by
  unfold EnforcesUniqueConstraints
  infer_instance

/-!
## Concrete example inputs
-/

/-- The signup payload of the spec's concrete scenario. -/
def examplePayload : NewOrganizationRequest :=
  { name := "Helping Hands"
    email := "Info@Helpers.org"
    phone_number := none
    url := "https://helpers.org"
    location_name := "Springfield"
    latitude := none
    longitude := none }

def emptyDatabase : Database :=
  { organization_account := [], organization_request := [], nextRequestId := 1 }

/-- A notification dispatch that succeeds. -/
def notifyOk : OrganizationRequestRow → Except String Unit := fun _ => Except.ok ()

/-- A notification dispatch that throws. -/
def notifyDown : OrganizationRequestRow → Except String Unit :=
  fun _ => Except.error "SMTP unavailable"

def accountRowOne : OrganizationAccountRow :=
  { id := 1
    name := "Org One"
    email := "one@example.org"
    phone_number := "5550100"
    url := "https://one.example.org"
    latitude := none
    longitude := none
    password := "hashed"
    location_name := "Townsville" }

def accountDatabase : Database :=
  { organization_account := [accountRowOne]
    organization_request := []
    nextRequestId := 1 }

/-- The example payload with different casing and surrounding whitespace of
the stored account email. -/
def casedPayload : NewOrganizationRequest :=
  { examplePayload with email := "  ONE@Example.org " }

/-- A 301-character input for exercising the truncation. -/
def longInput : String := String.mk (List.replicate 301 'a')

/-- A concrete server-confirmed profile. -/
def exampleProfile : VolunteerProfileResponse :=
  { volunteer :=
      { id := 7
        first_name := "Ada"
        last_name := "Lovelace"
        email := "ada@example.org"
        date_of_birth := "1815-12-10"
        gender := "female"
        description := some "Volunteer" }
    skills := ["Teaching", "First Aid"]
    cv := none
    privacy := some "private"
    unavailableFields := ["cv"] }

/-- The client state after loading `exampleProfile` and entering edit mode. -/
def loadedClientState : ClientState :=
  { initialClientState with
      profile := some exampleProfile
      form := getDefaultFormState exampleProfile
      loading := false
      isEditMode := true }

/-- Two concrete edits changing the description and the skills string. -/
def exampleEdits : List (ProfileFormField × String) :=
  [(ProfileFormField.description, "changed text"),
   (ProfileFormField.skills, "Cooking, Driving")]

/-- A database holding one account row and one pending request row. -/
def exampleDatabase : Database :=
  { organization_account := [accountRowOne]
    organization_request := [newRequestRow emptyDatabase examplePayload]
    nextRequestId := 2 }

/-!
## Theorems about the signup route
-/

theorem find?_email_eq_none_account (rows : List OrganizationAccountRow) (email : String)
    (h : ∀ r ∈ rows, r.email ≠ email) :
    rows.find? (fun r => r.email == email) = none := by
  rw [List.find?_eq_none]
  intro r hr
  simp [h r hr]

theorem find?_email_eq_none_request (rows : List OrganizationRequestRow) (email : String)
    (h : ∀ r ∈ rows, r.email ≠ email) :
    rows.find? (fun r => r.email == email) = none := by
  rw [List.find?_eq_none]
  intro r hr
  simp [h r hr]

/-- C1: if an approved organization account exists whose stored email equals
the normalized (lowercased, trimmed) submitted email, the handler fails with
status 400 and the message "An organization with this email account already
exists", and the database — in particular `organization_request` — is
unchanged. -/
theorem existingAccountRejectsSignup (db : Database) (body : NewOrganizationRequest)
    (notify : OrganizationRequestRow → Except String Unit)
    (h : ∃ r ∈ db.organization_account, r.email = normalizeEmail body.email) :
    (postOrganizationRequest db body notify).1
      = HandlerResult.error 400 "An organization with this email account already exists" ∧
    (postOrganizationRequest db body notify).2 = db := by
  have hfind : (db.organization_account.find?
      (fun r => r.email == normalizeEmail body.email)).isSome := by
    rw [List.find?_isSome]
    obtain ⟨r, hr, he⟩ := h
    exact ⟨r, hr, by simp [he]⟩
  obtain ⟨a, ha⟩ := Option.isSome_iff_exists.mp hfind
  constructor <;> simp [postOrganizationRequest, ha]

/-- Witness for C1: the stored email `one@example.org` rejects the
submitted email `"  ONE@Example.org "` (different casing and whitespace). -/
theorem existingAccountRejectsSignupWitness :
    (∃ r ∈ accountDatabase.organization_account,
        r.email = normalizeEmail casedPayload.email) ∧
    (postOrganizationRequest accountDatabase casedPayload notifyOk).1
      = HandlerResult.error 400 "An organization with this email account already exists" :=
  ⟨by decide,
   (existingAccountRejectsSignup accountDatabase casedPayload notifyOk (by decide)).1⟩

/-- C2: if no approved account but a pending request exists with the
normalized submitted email, the handler fails with status 400 and the
message "A request with this email is already pending", and the database is
unchanged. -/
theorem pendingRequestRejectsSignup (db : Database) (body : NewOrganizationRequest)
    (notify : OrganizationRequestRow → Except String Unit)
    (hAcc : ∀ r ∈ db.organization_account, r.email ≠ normalizeEmail body.email)
    (hPend : ∃ r ∈ db.organization_request, r.email = normalizeEmail body.email) :
    (postOrganizationRequest db body notify).1
      = HandlerResult.error 400 "A request with this email is already pending" ∧
    (postOrganizationRequest db body notify).2 = db := by
  have hA : db.organization_account.find?
      (fun r => r.email == normalizeEmail body.email) = none :=
    find?_email_eq_none_account _ _ hAcc
  have hfind : (db.organization_request.find?
      (fun r => r.email == normalizeEmail body.email)).isSome := by
    rw [List.find?_isSome]
    obtain ⟨r, hr, he⟩ := hPend
    exact ⟨r, hr, by simp [he]⟩
  obtain ⟨a, ha⟩ := Option.isSome_iff_exists.mp hfind
  constructor <;> simp [postOrganizationRequest, hA, ha]

/-- Witness for C2: submitting the spec's example payload twice against an
empty database returns `ok {}` first and the pending-request 400 second. -/
theorem pendingRequestRejectsSignupWitness :
    (postOrganizationRequest emptyDatabase examplePayload notifyOk).1
      = HandlerResult.ok ResponseBody.emptyObject ∧
    (postOrganizationRequest
        (postOrganizationRequest emptyDatabase examplePayload notifyOk).2
        examplePayload notifyOk).1
      = HandlerResult.error 400 "A request with this email is already pending" :=
  ⟨by decide,
   (pendingRequestRejectsSignup
      (postOrganizationRequest emptyDatabase examplePayload notifyOk).2
      examplePayload notifyOk (by decide) (by decide)).1⟩

/-- C3: when the normalized email matches neither an account nor a pending
request, the handler appends exactly one `organization_request` row whose
email is the normalized email, and answers `ok {}` for every outcome of the
admin notification, including a throwing one. -/
theorem freshSignupInsertsNormalizedRow (db : Database) (body : NewOrganizationRequest)
    (notify : OrganizationRequestRow → Except String Unit)
    (hAcc : ∀ r ∈ db.organization_account, r.email ≠ normalizeEmail body.email)
    (hPend : ∀ r ∈ db.organization_request, r.email ≠ normalizeEmail body.email) :
    (postOrganizationRequest db body notify).1 = HandlerResult.ok ResponseBody.emptyObject ∧
    (postOrganizationRequest db body notify).2.organization_request
      = db.organization_request ++ [newRequestRow db body] ∧
    (newRequestRow db body).email = normalizeEmail body.email := by
  have hA := find?_email_eq_none_account db.organization_account _ hAcc
  have hP := find?_email_eq_none_request db.organization_request _ hPend
  refine ⟨?_, ?_, rfl⟩ <;>
    cases hn : notify (newRequestRow db body) <;>
      simp [postOrganizationRequest, hA, hP, hn]

/-- Witness for C3: a fresh signup against `accountDatabase` (whose only
account has a different email) succeeds and inserts the normalized row even
though the notification dispatch throws. -/
theorem freshSignupInsertsNormalizedRowWitness :
    (∀ r ∈ accountDatabase.organization_account,
        r.email ≠ normalizeEmail examplePayload.email) ∧
    (∀ r ∈ accountDatabase.organization_request,
        r.email ≠ normalizeEmail examplePayload.email) ∧
    (postOrganizationRequest accountDatabase examplePayload notifyDown).1
      = HandlerResult.ok ResponseBody.emptyObject ∧
    (postOrganizationRequest accountDatabase examplePayload notifyDown).2.organization_request
      = [newRequestRow accountDatabase examplePayload] :=
  ⟨by decide, by decide,
   (freshSignupInsertsNormalizedRow accountDatabase examplePayload notifyDown
      (by decide) (by decide)).1,
   (freshSignupInsertsNormalizedRow accountDatabase examplePayload notifyDown
      (by decide) (by decide)).2.1⟩

/-- C4 counterexample: on a successful admission the handler sends
`res.json({})` — the empty object — not the stored `organization_request`
record. -/
theorem successBodyIsEmptyObjectCounterexample :
    (postOrganizationRequest emptyDatabase examplePayload notifyOk).1
      = HandlerResult.ok ResponseBody.emptyObject ∧
    (postOrganizationRequest emptyDatabase examplePayload notifyOk).2.organization_request
      = [newRequestRow emptyDatabase examplePayload] ∧
    (postOrganizationRequest emptyDatabase examplePayload notifyOk).1
      ≠ HandlerResult.ok (ResponseBody.record (newRequestRow emptyDatabase examplePayload)) := by
  refine ⟨?_, ?_, ?_⟩ <;> decide

/-- C4 (amended): on a successful admission the handler returns the empty
JSON object `{}` as its response body; the stored record is passed only to
the admin notification, not to the client. -/
theorem successReturnsEmptyObject (db : Database) (body : NewOrganizationRequest)
    (notify : OrganizationRequestRow → Except String Unit)
    (hAcc : ∀ r ∈ db.organization_account, r.email ≠ normalizeEmail body.email)
    (hPend : ∀ r ∈ db.organization_request, r.email ≠ normalizeEmail body.email) :
    (postOrganizationRequest db body notify).1 = HandlerResult.ok ResponseBody.emptyObject := by
  have hA := find?_email_eq_none_account db.organization_account _ hAcc
  have hP := find?_email_eq_none_request db.organization_request _ hPend
  cases hn : notify (newRequestRow db body) <;>
    simp [postOrganizationRequest, hA, hP, hn]

/-- Witness for the amended C4. -/
theorem successReturnsEmptyObjectWitness :
    (∀ r ∈ emptyDatabase.organization_account,
        r.email ≠ normalizeEmail examplePayload.email) ∧
    (postOrganizationRequest emptyDatabase examplePayload notifyOk).1
      = HandlerResult.ok ResponseBody.emptyObject :=
  ⟨by decide,
   successReturnsEmptyObject emptyDatabase examplePayload notifyOk (by decide) (by decide)⟩

/-!
## Theorems about the profile editor
-/

/-- C5: the parsed skill list is the comma-split segments of the input,
each trimmed, with empty segments discarded; it is a sublist of the trimmed
segments (order preserved, duplicates kept); and the spec's example input
parses to exactly its two nonempty segments. -/
theorem parsedSkillsSplitTrimFilter :
    (∀ s : String,
        parsedSkills s
          = List.filter (fun t => t ≠ "") (List.map jsTrim (jsSplitComma s)) ∧
        List.Sublist (parsedSkills s) (List.map jsTrim (jsSplitComma s))) ∧
    parsedSkills "Teaching, , First Aid,," = ["Teaching", "First Aid"] := by
  refine ⟨fun s => ⟨rfl, ?_⟩, by decide⟩
  exact List.filter_sublist _

/-- C6: updating the description stores exactly the first
`DESCRIPTION_MAX_LENGTH` characters of the typed value: the stored value
never exceeds the maximum, a longer input is cut to exactly the maximum,
and an input within the maximum is stored unchanged. -/
theorem descriptionTruncation (state : ClientState) (value : String) :
    (updateForm state ProfileFormField.description value).form.description
      = jsSliceTo value DESCRIPTION_MAX_LENGTH ∧
    (updateForm state ProfileFormField.description value).form.description.length
      ≤ DESCRIPTION_MAX_LENGTH ∧
    (DESCRIPTION_MAX_LENGTH < value.length →
      (updateForm state ProfileFormField.description value).form.description.length
        = DESCRIPTION_MAX_LENGTH) ∧
    (value.length ≤ DESCRIPTION_MAX_LENGTH →
      (updateForm state ProfileFormField.description value).form.description = value) := by
  refine ⟨rfl, ?_, ?_, ?_⟩
  · show (value.data.take DESCRIPTION_MAX_LENGTH).length ≤ DESCRIPTION_MAX_LENGTH
    rw [List.length_take]
    exact Nat.min_le_left _ _
  · intro h
    show (value.data.take DESCRIPTION_MAX_LENGTH).length = DESCRIPTION_MAX_LENGTH
    rw [List.length_take]
    exact Nat.min_eq_left (Nat.le_of_lt h)
  · intro h
    show String.mk (value.data.take DESCRIPTION_MAX_LENGTH) = value
    cases value with
    | mk data => rw [List.take_of_length_le h]

set_option maxRecDepth 4000 in
/-- Witness for C6: a 301-character description is stored as its first 300
characters. -/
theorem descriptionTruncationWitness :
    DESCRIPTION_MAX_LENGTH < longInput.length ∧
    (updateForm initialClientState ProfileFormField.description longInput).form.description
      = String.mk (List.replicate 300 'a') ∧
    (updateForm initialClientState ProfileFormField.description longInput).form.description.length
      = DESCRIPTION_MAX_LENGTH :=
  ⟨by decide, by decide,
   (descriptionTruncation initialClientState longInput).2.2.1 (by decide)⟩

theorem applyEdits_profile (edits : List (ProfileFormField × String)) :
    ∀ state : ClientState, (applyEdits state edits).profile = state.profile := by
  induction edits with
  | nil => intro state; rfl
  | cons e rest ih =>
    intro state
    cases e with
    | mk field value => exact ih (updateForm state field value)

/-- C7: after any sequence of form-field edits, canceling restores the form
to exactly the values seeded from the server-confirmed profile, and leaves
edit mode. -/
theorem cancelRestoresSeededForm (p : VolunteerProfileResponse) (state : ClientState)
    (edits : List (ProfileFormField × String)) (h : state.profile = some p) :
    (onCancelEdit (applyEdits state edits)).form = getDefaultFormState p ∧
    (onCancelEdit (applyEdits state edits)).isEditMode = false := by
  have hp : (applyEdits state edits).profile = some p := by
    rw [applyEdits_profile]
    exact h
  constructor <;> simp [onCancelEdit, hp]

/-- Witness for C7: editing description and skills and then canceling
restores the seeded form of `exampleProfile`. -/
theorem cancelRestoresSeededFormWitness :
    loadedClientState.profile = some exampleProfile ∧
    (onCancelEdit (applyEdits loadedClientState exampleEdits)).form
      = getDefaultFormState exampleProfile ∧
    getDefaultFormState exampleProfile
      = { description := "Volunteer"
          skills := "Teaching, First Aid"
          cv := ""
          privacy := "private" } :=
  ⟨rfl,
   (cancelRestoresSeededForm exampleProfile loadedClientState exampleEdits rfl).1,
   by decide⟩

/-- C8: when the save request fails, the client stays in edit mode, every
form field keeps the value it had before the save, the save error carries
the failure message, and the profile is untouched. -/
theorem saveFailureKeepsEditingState (state : ClientState) (message : String)
    (p : VolunteerProfileResponse)
    (hEdit : state.isEditMode = true) (hProfile : state.profile = some p) :
    (onSave state (Except.error message)).isEditMode = true ∧
    (onSave state (Except.error message)).form = state.form ∧
    (onSave state (Except.error message)).saveError = some message ∧
    (onSave state (Except.error message)).profile = state.profile := by
  refine ⟨?_, ?_, ?_, ?_⟩ <;> simp [onSave, hEdit, hProfile]

/-- Witness for C8: a failed save from `loadedClientState` keeps the seeded
form and edit mode and stores the error message. -/
theorem saveFailureKeepsEditingStateWitness :
    loadedClientState.isEditMode = true ∧
    (onSave loadedClientState (Except.error "Network error")).isEditMode = true ∧
    (onSave loadedClientState (Except.error "Network error")).form = loadedClientState.form ∧
    (onSave loadedClientState (Except.error "Network error")).saveError = some "Network error" :=
  ⟨rfl,
   (saveFailureKeepsEditingState loadedClientState "Network error" exampleProfile rfl rfl).1,
   (saveFailureKeepsEditingState loadedClientState "Network error" exampleProfile rfl rfl).2.1,
   (saveFailureKeepsEditingState loadedClientState "Network error" exampleProfile rfl rfl).2.2.1⟩

/-!
## Theorems about the migration schema
-/

theorem accountColumnValue_email (r : OrganizationAccountRow) :
    accountColumnValue "email" r = ColumnValue.strVal r.email := rfl

theorem accountColumnValue_url (r : OrganizationAccountRow) :
    accountColumnValue "url" r = ColumnValue.strVal r.url := rfl

theorem requestColumnValue_email (r : OrganizationRequestRow) :
    requestColumnValue "email" r = ColumnValue.strVal r.email := rfl

theorem requestColumnValue_url (r : OrganizationRequestRow) :
    requestColumnValue "url" r = ColumnValue.strVal r.url := rfl

/-- C9: the migration declares the email and url columns of both
`organization_account` and `organization_request` as `notNull` and
`unique`; consequently, in every database state whose declared unique
constraints are enforced, no two distinct rows of either table share an
email or a url. -/
theorem migrationUniqueEmailUrl :
    ((organization_account_columns.any fun c => c.name == "email" && c.notNull && c.unique) = true ∧
     (organization_account_columns.any fun c => c.name == "url" && c.notNull && c.unique) = true ∧
     (organization_request_columns.any fun c => c.name == "email" && c.notNull && c.unique) = true ∧
     (organization_request_columns.any fun c => c.name == "url" && c.notNull && c.unique) = true) ∧
    ∀ db : Database, EnforcesUniqueConstraints db →
      (∀ r1 ∈ db.organization_account, ∀ r2 ∈ db.organization_account,
          r1.email = r2.email → r1 = r2) ∧
      (∀ r1 ∈ db.organization_account, ∀ r2 ∈ db.organization_account,
          r1.url = r2.url → r1 = r2) ∧
      (∀ r1 ∈ db.organization_request, ∀ r2 ∈ db.organization_request,
          r1.email = r2.email → r1 = r2) ∧
      (∀ r1 ∈ db.organization_request, ∀ r2 ∈ db.organization_request,
          r1.url = r2.url → r1 = r2) := by
  refine ⟨⟨by decide, by decide, by decide, by decide⟩, ?_⟩
  intro db h
  have hae : (db.organization_account.map (accountColumnValue "email")).Nodup :=
    h.1 { name := "email", sqlType := "varchar(128)", notNull := true, unique := true }
      (by decide) rfl
  have hau : (db.organization_account.map (accountColumnValue "url")).Nodup :=
    h.1 { name := "url", sqlType := "varchar(256)", notNull := true, unique := true }
      (by decide) rfl
  have hre : (db.organization_request.map (requestColumnValue "email")).Nodup :=
    h.2 { name := "email", sqlType := "varchar(128)", notNull := true, unique := true }
      (by decide) rfl
  have hru : (db.organization_request.map (requestColumnValue "url")).Nodup :=
    h.2 { name := "url", sqlType := "varchar(256)", notNull := true, unique := true }
      (by decide) rfl
  refine ⟨?_, ?_, ?_, ?_⟩
  · intro r1 h1 r2 h2 he
    refine List.inj_on_of_nodup_map hae h1 h2 ?_
    rw [accountColumnValue_email, accountColumnValue_email, he]
  · intro r1 h1 r2 h2 he
    refine List.inj_on_of_nodup_map hau h1 h2 ?_
    rw [accountColumnValue_url, accountColumnValue_url, he]
  · intro r1 h1 r2 h2 he
    refine List.inj_on_of_nodup_map hre h1 h2 ?_
    rw [requestColumnValue_email, requestColumnValue_email, he]
  · intro r1 h1 r2 h2 he
    refine List.inj_on_of_nodup_map hru h1 h2 ?_
    rw [requestColumnValue_url, requestColumnValue_url, he]

/-- Witness for C9: `exampleDatabase` satisfies the declared unique
constraints, so its rows are injective on email and url. -/
theorem migrationUniqueEmailUrlWitness :
    EnforcesUniqueConstraints exampleDatabase ∧
    (∀ r1 ∈ exampleDatabase.organization_account, ∀ r2 ∈ exampleDatabase.organization_account,
        r1.email = r2.email → r1 = r2) ∧
    (∀ r1 ∈ exampleDatabase.organization_request, ∀ r2 ∈ exampleDatabase.organization_request,
        r1.url = r2.url → r1 = r2) :=
  ⟨by decide,
   (migrationUniqueEmailUrl.2 exampleDatabase (by decide)).1,
   (migrationUniqueEmailUrl.2 exampleDatabase (by decide)).2.2.2⟩

/-- C10: the privacy value seeded into the form is `"private"` exactly when
the server-reported privacy field is the string `"private"`; every other
reported value, `none` included, seeds `"public"`. -/
theorem privacySeedingIffPrivate (profile : VolunteerProfileResponse) :
    ((getDefaultFormState profile).privacy = "private" ↔ profile.privacy = some "private") ∧
    ((getDefaultFormState profile).privacy = "public" ↔ profile.privacy ≠ some "private") := by
  unfold getDefaultFormState
  by_cases h : profile.privacy = some "private" <;> simp [h]

/-- Witness for C10: `exampleProfile` reports privacy `some "private"` and
is seeded `"private"`; clearing the field seeds `"public"`. -/
theorem privacySeedingIffPrivateWitness :
    exampleProfile.privacy = some "private" ∧
    (getDefaultFormState exampleProfile).privacy = "private" ∧
    (getDefaultFormState { exampleProfile with privacy := none }).privacy = "public" :=
  ⟨rfl,
   ((privacySeedingIffPrivate exampleProfile).1).mpr rfl,
   ((privacySeedingIffPrivate { exampleProfile with privacy := none }).2).mpr (by decide)⟩
